import Mathlib

/-!
Verification of the aggregation pipeline of `src/app.py` (YouTube watch-history
dashboard).  The pipeline lives in `load_data` (lines 12-94) and the calendar
pivot construction (lines 163-187).  We shallowly embed the data flow:

* a raw record carries a timestamp string, a `titleUrl` and a `title`;
  `pd.to_datetime(..., format='mixed', errors='coerce')` parses each timestamp
  string either to `NaT` (failure), to a timezone-naive local datetime, or to a
  timezone-aware instant (the export format carries a UTC designator, so aware
  instants are modelled as seconds since the Unix epoch).  We embed the parse
  *result* (`TimeParse`), not the string parser, which is pandas library code.
* `df['titleUrl'].str.extract(r'v=([^&]+)')` is embedded as `extract_video_id`.
* `.dt.tz_convert('Asia/Tokyo')` raises `TypeError` when the column is
  tz-naive.  Column-wise, pandas gives the parsed column a tz-aware dtype iff
  at least one element parsed aware and none parsed naive (an all-`NaT` or
  all-naive column is tz-naive; mixing naive and aware parses fails at
  `to_datetime`/`.dt` with `errors='coerce'` not suppressing it).  `load_data`
  wraps everything in `try/except`, so any such failure makes it return all
  `None`s; that caught-error path is the `Except.error ()` branch of our
  `load_data`.
* dates are day numbers since 1970-01-01; `dt.date` after the JST conversion is
  `jst_day`; `dt.to_period('M')`, `dt.day`, `dt.dayofweek` are obtained from
  the day number through the standard civil-from-days algorithm.
* pandas sorts: `groupby` sorts group keys ascending; `sort_values` on several
  columns is a stable lexicographic sort (`lexsort`); `sort_values` on one
  column with the default `kind='quicksort'` sorts by the key but guarantees
  no order among equal keys.  All sorts are embedded with
  `List.insertionSort`; for the single-column descending sort this picks one
  deterministic refinement of the unstable sort (see `df_scoreboard`).
  Python strings compare lexicographically by code point, embedded as
  `charsLt`.
-/

namespace WatchHistory

/-- Result of `pd.to_datetime` on one timestamp string: `failed` is `NaT`,
`naive` is a timestamp without timezone information, `aware` is a
timezone-aware instant (seconds since the Unix epoch, UTC). -/
inductive TimeParse where
  | failed : TimeParse
  | naive (t : Nat) : TimeParse
  | aware (t : Nat) : TimeParse
deriving DecidableEq

def TimeParse.isNaive : TimeParse → Bool
  | .naive _ => true
  | _ => false

def TimeParse.isAware : TimeParse → Bool
  | .aware _ => true
  | _ => false

/-- One element of the uploaded `watch-history.json` array, with the timestamp
field already put through `pd.to_datetime`. -/
structure RawRecord where
  time : TimeParse
  titleUrl : String
  title : String
deriving DecidableEq

/-- `str.extract(r'v=([^&]+)')` (line 22): first occurrence of `v=` followed by
at least one character other than `&`; the capture group runs to the next `&`
or the end of the string.  When the group would be empty the regex engine
resumes the search at the following character. -/
def extract_video_id : List Char → Option (List Char)
  | [] => none
  | 'v' :: '=' :: rest =>
      let tok := rest.takeWhile (fun c => c ≠ '&')
      if tok.isEmpty then extract_video_id ('=' :: rest) else some tok
  | _ :: rest => extract_video_id rest

/-- Calendar date (in JST) of an aware instant: `tz_convert('Asia/Tokyo')`
shifts the wall clock by +9h (32400 s), `.dt.date` truncates to the day.
The result is a day number counted from 1970-01-01. -/
def jst_day (t : Nat) : Nat := (t + 32400) / 86400

/-- `dt.dayofweek`: Monday = 0 … Sunday = 6.  1970-01-01 was a Thursday. -/
def weekday_of (z : Nat) : Nat := (z + 3) % 7

/-- Civil date `(year, month, day-of-month)` of a day number since 1970-01-01
(standard days-to-civil algorithm). -/
def civil_of (z : Nat) : Nat × Nat × Nat :=
  let zs := z + 719468
  let era := zs / 146097
  let doe := zs % 146097
  let yoe := (doe - doe / 1460 + doe / 36524 - doe / 146096) / 365
  let y := yoe + era * 400
  let doy := doe - (365 * yoe + yoe / 4 - yoe / 100)
  let mp := (5 * doy + 2) / 153
  let d := doy - (153 * mp + 2) / 5 + 1
  let m := if mp < 10 then mp + 3 else mp - 9
  (if m ≤ 2 then y + 1 else y, m, d)

/-- `dt.to_period('M')`: the `(year, month)` label of a day number. -/
def ym_of (z : Nat) : Nat × Nat := ((civil_of z).1, (civil_of z).2.1)

/-- `dt.day`: day of month of a day number. -/
def dom_of (z : Nat) : Nat := (civil_of z).2.2

/-- The rows of `df_processed` that feed every aggregation: records whose
`titleUrl` matches the video-id pattern (line 23 `dropna(subset=['video_id'])`)
and whose timestamp parsed to an aware instant.  `NaT` rows survive into
`df_processed` but produce a `NaN` group key at every `groupby`/`value_counts`,
which drop them (`dropna=True`), so they contribute to no derived table.
Each event is its JST calendar date paired with the extracted video id. -/
def normalized_events (records : List RawRecord) : List (Nat × String) :=
  records.filterMap fun r =>
    match r.time, extract_video_id r.titleUrl.data with
    | .aware t, some v => some (jst_day t, ⟨v⟩)
    | _, _ => none

/-! ### Kernel-computable string comparison (Python code-point order) -/

/-- Python `<` on strings: lexicographic by code point. -/
def charsLt : List Char → List Char → Bool
  | _, [] => false
  | [], _ :: _ => true
  | a :: s, b :: t => if a = b then charsLt s t else decide (a < b)

theorem charsLt_irrefl : ∀ l : List Char, charsLt l l = false := by
  intro l
  induction l with
  | nil => rfl
  | cons a s ih => simp [charsLt, ih]

theorem charsLt_trans : ∀ a b c : List Char,
    charsLt a b = true → charsLt b c = true → charsLt a c = true := by
  intro a
  induction a with
  | nil =>
    intro b c hab hbc
    cases c with
    | nil => cases b <;> simp [charsLt] at hab hbc
    | cons y t => simp [charsLt]
  | cons x s ih =>
    intro b c hab hbc
    cases b with
    | nil => simp [charsLt] at hab
    | cons y t =>
      cases c with
      | nil => simp [charsLt] at hbc
      | cons z u =>
        simp only [charsLt] at hab hbc ⊢
        by_cases hxy : x = y
        · subst hxy
          simp only [if_pos rfl] at hab
          by_cases hyz : x = z
          · subst hyz
            simp only [if_pos rfl] at hbc ⊢
            exact ih t u hab hbc
          · simpa [hyz] using hbc
        · simp only [if_neg hxy, decide_eq_true_eq] at hab
          by_cases hyz : y = z
          · subst hyz
            simp [hxy, hab]
          · simp only [if_neg hyz, decide_eq_true_eq] at hbc
            have hxz : x < z := lt_trans hab hbc
            simp [ne_of_lt hxz, hxz]

theorem charsLt_connex : ∀ a b : List Char,
    charsLt a b = false → charsLt b a = false → a = b := by
  intro a
  induction a with
  | nil =>
    intro b hab _
    cases b with
    | nil => rfl
    | cons y t => simp [charsLt] at hab
  | cons x s ih =>
    intro b hab hba
    cases b with
    | nil => simp [charsLt] at hba
    | cons y t =>
      simp only [charsLt] at hab hba
      by_cases hxy : x = y
      · subst hxy
        simp only [if_pos rfl] at hab hba
        rw [ih t hab hba]
      · simp only [if_neg hxy, if_neg (Ne.symm hxy), decide_eq_false_iff_not] at hab hba
        exact absurd (le_antisymm (not_lt.mp hba) (not_lt.mp hab)) hxy

theorem charsLt_asymm {a b : List Char} (h : charsLt a b = true) : charsLt b a = false := by
  cases hba : charsLt b a with
  | false => rfl
  | true => exact absurd (charsLt_irrefl a) (by simp [charsLt_trans a b a h hba])

/-! ### The sort relations used by the pipeline -/

/-- `groupby([date, video_id])` key order (line 29): ascending lexicographic on
`(date, video_id)`. -/
def dvLe (a b : Nat × String) : Prop :=
  a.1 < b.1 ∨ (a.1 = b.1 ∧ charsLt b.2.data a.2.data = false)

instance : DecidableRel dvLe := fun a b =>
  inferInstanceAs (Decidable (a.1 < b.1 ∨ (a.1 = b.1 ∧ charsLt b.2.data a.2.data = false)))

/-- `sort_values(by=['video_id', 'time'])` order (line 33): ascending
lexicographic on `(video_id, date)`. -/
def vdLe (a b : (Nat × String) × Nat) : Prop :=
  charsLt a.1.2.data b.1.2.data = true ∨ (a.1.2 = b.1.2 ∧ a.1.1 ≤ b.1.1)

instance : DecidableRel vdLe := fun a b =>
  inferInstanceAs (Decidable (charsLt a.1.2.data b.1.2.data = true ∨ (a.1.2 = b.1.2 ∧ a.1.1 ≤ b.1.1)))

/-- Ascending order on video-id strings (`groupby('video_id')` key order). -/
def strLe (a b : String) : Prop := charsLt b.data a.data = false

instance : DecidableRel strLe := fun _ _ => Bool.decEq _ _

theorem strings_eq_of_data_eq {a b : String} (h : a.data = b.data) : a = b :=
  String.toList_inj.mp h

instance : IsTotal String strLe :=
  ⟨fun a b => by
    unfold strLe
    cases h : charsLt b.data a.data with
    | false => exact Or.inl rfl
    | true => exact Or.inr (charsLt_asymm h)⟩

instance : IsTrans String strLe :=
  ⟨fun a b c hab hbc => by
    unfold strLe at *
    cases h : charsLt c.data a.data with
    | false => rfl
    | true =>
      cases h2 : charsLt a.data b.data with
      | true => exact absurd (charsLt_trans _ _ _ h h2) (by simp [hbc])
      | false =>
        have : a.data = b.data := charsLt_connex _ _ h2 hab
        exact absurd (this ▸ h) (by simp [hbc])⟩

instance : IsTotal ((Nat × String) × Nat) vdLe :=
  ⟨fun a b => by
    unfold vdLe
    cases h : charsLt a.1.2.data b.1.2.data with
    | true => exact Or.inl (Or.inl rfl)
    | false =>
      cases h2 : charsLt b.1.2.data a.1.2.data with
      | true => exact Or.inr (Or.inl rfl)
      | false =>
        have he : a.1.2 = b.1.2 := strings_eq_of_data_eq (charsLt_connex _ _ h h2)
        rcases Nat.le_total a.1.1 b.1.1 with h3 | h3
        · exact Or.inl (Or.inr ⟨he, h3⟩)
        · exact Or.inr (Or.inr ⟨he.symm, h3⟩)⟩

instance : IsTrans ((Nat × String) × Nat) vdLe :=
  ⟨fun a b c hab hbc => by
    unfold vdLe at *
    rcases hab with hab | ⟨hab, hab2⟩
    · rcases hbc with hbc | ⟨hbc, _⟩
      · exact Or.inl (charsLt_trans _ _ _ hab hbc)
      · exact Or.inl (hbc ▸ hab)
    · rcases hbc with hbc | ⟨hbc, hbc2⟩
      · exact Or.inl (hab ▸ hbc)
      · exact Or.inr ⟨hab.trans hbc, hab2.trans hbc2⟩⟩

/-- `value_counts().sort_index()` order for months (lines 44-46): ascending
lexicographic on `(year, month)` (the string label "YYYY-MM" sorts the same
way). -/
def ymLe (a b : Nat × Nat) : Prop := a.1 < b.1 ∨ (a.1 = b.1 ∧ a.2 ≤ b.2)

instance : DecidableRel ymLe := fun a b =>
  inferInstanceAs (Decidable (a.1 < b.1 ∨ (a.1 = b.1 ∧ a.2 ≤ b.2)))

/-- Column order of the pivot table: ascending on `((year, month), day)`. -/
def colLe (a b : (Nat × Nat) × Nat) : Prop :=
  (a.1.1 < b.1.1 ∨ (a.1.1 = b.1.1 ∧ a.1.2 < b.1.2)) ∨ (a.1 = b.1 ∧ a.2 ≤ b.2)

instance : DecidableRel colLe := fun a b =>
  inferInstanceAs (Decidable ((a.1.1 < b.1.1 ∨ (a.1.1 = b.1.1 ∧ a.1.2 < b.1.2)) ∨ (a.1 = b.1 ∧ a.2 ≤ b.2)))

/-! ### The aggregation tables of `load_data` -/

/-- Line 29: `groupby([jst date, video_id]).size()`; one row per distinct
`(date, video_id)` key, keys sorted ascending, value = number of normalized
events with that key. -/
def df_daily (evs : List (Nat × String)) : List ((Nat × String) × Nat) :=
  (List.insertionSort dvLe evs.dedup).map fun k => (k, evs.countP (fun e => decide (e = k)))

/-- One row of `df_cumulative` (lines 33-34). -/
structure CumRow where
  date : Nat
  vid : String
  count : Nat
  cum : Nat
deriving DecidableEq

/-- Python-dict insert: overwrite in place if the key exists, else append. -/
def insertA {β : Type} : List (String × β) → String → β → List (String × β)
  | [], k, v => [(k, v)]
  | (k0, v0) :: d, k, v =>
      if k0 = k then (k, v) :: d else (k0, v0) :: insertA d k v

def lookupA {β : Type} : List (String × β) → String → Option β
  | [], _ => none
  | (k0, v0) :: d, k => if k0 = k then some v0 else lookupA d k

/-- Line 34: `groupby('video_id')['daily_watch_count'].cumsum()` — a per-video
running sum in row order, carried by a dictionary from video id to the sum so
far. -/
def cumsum_by : List (String × Nat) → List ((Nat × String) × Nat) → List CumRow
  | _, [] => []
  | acc, r :: rest =>
      let s := ((lookupA acc r.1.2).getD 0) + r.2
      ⟨r.1.1, r.1.2, r.2, s⟩ :: cumsum_by (insertA acc r.1.2 s) rest

/-- Lines 33-34: `df_daily` sorted by `(video_id, time)` with the per-video
cumulative sum attached. -/
def df_cumulative (evs : List (Nat × String)) : List CumRow :=
  cumsum_by [] (List.insertionSort vdLe (df_daily evs))

/-- Lines 37-40: overall daily totals, dates ascending. -/
def df_daily_total (evs : List (Nat × String)) : List (Nat × Nat) :=
  (List.insertionSort (· ≤ ·) (evs.map Prod.fst).dedup).map
    fun d => (d, (evs.map Prod.fst).countP (fun x => decide (x = d)))

/-- Lines 44-46: overall monthly totals, months ascending. -/
def df_monthly_total (evs : List (Nat × String)) : List ((Nat × Nat) × Nat) :=
  (List.insertionSort ymLe (evs.map (fun e => ym_of e.1)).dedup).map
    fun m => (m, (evs.map (fun e => ym_of e.1)).countP (fun x => decide (x = m)))

/-- `.idxmax()` then `.loc`: the first row attaining the maximum value
(`idxmax` returns the first occurrence of the maximum).  `none` models the
`most_watched_* = None` sentinel kept when the table is empty (lines 60-66). -/
def idxmax_first {α : Type} : List (α × Nat) → Option (α × Nat)
  | [] => none
  | x :: t => some (t.foldl (fun b r => if b.2 < r.2 then r else b) x)

/-- Line 70: `groupby('video_id')['time'].idxmax()` — per video, the row with
the maximum date; ties impossible, but `idxmax` keeps the first maximum. -/
def argmax_date : List CumRow → Option CumRow
  | [] => none
  | x :: t => some (t.foldl (fun b r => if b.date < r.date then r else b) x)

/-- Lines 70-72: one latest-cumulative row per video id, in the `groupby`
order, i.e. video ids ascending. -/
def latest_cumulative (cum : List CumRow) : List CumRow :=
  (List.insertionSort strLe (cum.map CumRow.vid).dedup).filterMap
    fun v => argmax_date (cum.filter (fun r => decide (r.vid = v)))

/-! ### Video metadata (lines 49-57) -/

/-- The fixed phrase removed from titles (line 52). -/
def phrase : List Char := " を視聴しました".data

/-- Python `str.replace(old, "")`: remove every non-overlapping occurrence,
scanning left to right.  The fuel argument (instantiated with the string
length) only serves structural termination; one unit of fuel consumes at least
one character. -/
def replace_all (pat : List Char) : Nat → List Char → List Char
  | _, [] => []
  | 0, s => s
  | fuel + 1, c :: rest =>
      if pat.isPrefixOf (c :: rest) && !pat.isEmpty then
        replace_all pat fuel (List.drop (pat.length - 1) rest)
      else c :: replace_all pat fuel rest

/-- Python `str.strip()`: drop whitespace from both ends. -/
def py_strip (l : List Char) : List Char :=
  ((l.dropWhile Char.isWhitespace).reverse.dropWhile Char.isWhitespace).reverse

/-- Line 52: `row['title'].replace(" を視聴しました", "").strip()`. -/
def clean_title (s : String) : String :=
  ⟨py_strip (replace_all phrase s.data.length s.data)⟩

/-- Line 53: the fixed thumbnail template, a function of the video id only. -/
def thumbnail_url (v : String) : String :=
  "http://img.youtube.com/vi/" ++ v ++ "/hqdefault.jpg"

/-- Lines 49-57: iterate over the records that have a video id, in input
order, storing `(title, thumbnail)` under the id — later records overwrite
earlier ones. -/
def video_info_dict (records : List RawRecord) : List (String × String × String) :=
  records.foldl
    (fun d r =>
      match extract_video_id r.titleUrl.data with
      | some v => insertA d ⟨v⟩ (clean_title r.title, thumbnail_url ⟨v⟩)
      | none => d)
    []

/-! ### Scoreboard (lines 68-85) -/

/-- One row of `df_scoreboard`; `title`/`thumb` are `none` when the left join
with the video-info table finds no match (`NaN`). -/
structure ScRow where
  vid : String
  cum : Nat
  title : Option String
  thumb : Option String
deriving DecidableEq

/-- `sort_values(by='cumulative_watch_count', ascending=False)` comparison:
descending by cumulative count. -/
def cumGe (a b : ScRow) : Prop := b.cum ≤ a.cum

instance : DecidableRel cumGe := fun a b => inferInstanceAs (Decidable (b.cum ≤ a.cum))

instance : IsTotal ScRow cumGe := ⟨fun a b => (Nat.le_total b.cum a.cum).imp id id⟩

instance : IsTrans ScRow cumGe := ⟨fun _ _ _ h h2 => Nat.le_trans h2 h⟩

/-- Lines 68-85.  When `df_cumulative` is empty the scoreboard is the empty
frame (line 85).  Otherwise take the latest cumulative row per video, join
titles and thumbnails (placeholder strings when the dict is empty, lines
80-81), and sort descending by cumulative count.  Line 83 passes no `kind=`,
so pandas uses the default `kind='quicksort'`, which is documented as not
stable: the relative order of equal-count rows is implementation defined.  An
executable embedding must pick one deterministic refinement; we use the stable
`insertionSort` on `cumGe`, which agrees with the observed behavior on short
tied runs (numpy's introsort runs a stable insertion sort there).  No
universal theorem below relies on the tie order — only on the descending
order, which every sort kind guarantees; the tie order is only evaluated at a
concrete two-row input, where the real behavior is unambiguous. -/
def df_scoreboard (evs : List (Nat × String)) (records : List RawRecord) : List ScRow :=
  let cum := df_cumulative evs
  if cum.isEmpty then []
  else
    let latest := latest_cumulative cum
    let dict := video_info_dict records
    let rows :=
      if dict.isEmpty then
        latest.map fun r =>
          { vid := r.vid, cum := r.cum
            title := some "タイトル情報なし", thumb := some "サムネイル情報なし" }
      else
        latest.map fun r =>
          { vid := r.vid, cum := r.cum
            title := (lookupA dict r.vid).map Prod.fst
            thumb := (lookupA dict r.vid).map Prod.snd }
    List.insertionSort cumGe rows

/-! ### `load_data` (lines 12-94) -/

structure LoadOutput where
  daily : List ((Nat × String) × Nat)
  cumulative : List CumRow
  dailyTotal : List (Nat × Nat)
  monthlyTotal : List ((Nat × Nat) × Nat)
  videoInfo : List (String × String × String)
  mostWatchedDay : Option (Nat × Nat)
  mostWatchedMonth : Option ((Nat × Nat) × Nat)
  scoreboard : List ScRow
deriving DecidableEq

/-- The whole of `load_data`.  `Except.error ()` is the `except` branch
(lines 90-92): an error message is shown and every output is `None`.  That
branch is reached exactly when the parsed `time` column is not tz-aware:

* some timestamp parses naive — a fully naive column makes
  `tz_convert('Asia/Tokyo')` raise `TypeError`, and a naive/aware mix already
  fails at `to_datetime(format='mixed')`;
* no timestamp parses aware — this covers the empty upload (an empty
  `DataFrame` has no `time` column, so line 21 raises `KeyError`) and the
  all-`NaT`/all-naive column, which is tz-naive dtype, so `tz_convert`
  raises `TypeError`. -/
def load_data (records : List RawRecord) : Except Unit LoadOutput :=
  if (records.any fun r => r.time.isNaive) || !(records.any fun r => r.time.isAware) then
    .error ()
  else
    let evs := normalized_events records
    .ok
      { daily := df_daily evs
        cumulative := df_cumulative evs
        dailyTotal := df_daily_total evs
        monthlyTotal := df_monthly_total evs
        videoInfo := video_info_dict records
        mostWatchedDay := idxmax_first (df_daily_total evs)
        mostWatchedMonth := idxmax_first (df_monthly_total evs)
        scoreboard := df_scoreboard evs records }

/-! ### Calendar pivot (lines 163-187)

`pd.pivot_table(..., index='weekday', columns=['month_year', 'day'],
fill_value=0)` builds rows only for the weekday names present in the input;
`reindex(weekday_order)` then forces the seven rows Monday…Sunday, filling the
rows of absent weekdays with `NaN` (not with 0 — `fill_value` applies inside
`pivot_table` only).  A cell is therefore:

* `none` (`NaN`) if the weekday occurs nowhere in the input;
* the input value if some input date has this weekday and column label;
* `0` otherwise (the `fill_value`). -/

/-- The row labels after `reindex(weekday_order)`: always the seven weekdays
Monday…Sunday (as `dayofweek` numbers 0…6). -/
def pivot_weekday_rows : List Nat := [0, 1, 2, 3, 4, 5, 6]

/-- The column labels: every distinct `((year, month), day-of-month)` present
in the input, ascending. -/
def pivot_cols (data : List (Nat × Nat)) : List ((Nat × Nat) × Nat) :=
  List.insertionSort colLe (data.map (fun r => (ym_of r.1, dom_of r.1))).dedup

/-- The cell of the reindexed pivot table at row `w` (a `dayofweek` number)
and column `c`. -/
def pivot_cell (data : List (Nat × Nat)) (w : Nat) (c : (Nat × Nat) × Nat) : Option Nat :=
  if data.any (fun r => decide (weekday_of r.1 = w)) then
    some (((data.find? fun r =>
      decide (weekday_of r.1 = w) && decide ((ym_of r.1, dom_of r.1) = c)).map Prod.snd).getD 0)
  else none

/-- Running sum over a single stream, starting from `s`. -/
def cumsum_one (s : Nat) : List ((Nat × String) × Nat) → List CumRow
  | [] => []
  | r :: rest => ⟨r.1.1, r.1.2, r.2, s + r.2⟩ :: cumsum_one (s + r.2) rest

/-- Sample input for witnesses: video "A" watched twice on day 19723 and three
times on day 19724. -/
def sampleB : List (Nat × String) :=
  [(19723, "A"), (19723, "A"), (19724, "A"), (19724, "A"), (19724, "A")]

/-! ### Counting facts about `df_daily` -/

/-- Grouping neither loses nor duplicates events: for one video id, the daily
counts add up to the number of normalized events with that id. -/
theorem daily_count_sum (evs : List (Nat × String)) (v : String) :
    (((df_daily evs).filter (fun r => decide (r.1.2 = v))).map (fun r => r.2)).sum
      = (evs.filter (fun e => decide (e.2 = v))).length := by
  unfold df_daily
  rw [List.filter_map, List.map_map]
  rw [List.Perm.sum_eq (((List.perm_insertionSort dvLe evs.dedup).filter _).map _)]
  have h := List.sum_map_count_dedup_filter_eq_countP (fun k : Nat × String => decide (k.2 = v)) evs
  rw [List.countP_eq_length_filter] at h
  exact h

theorem daily_count_pos (evs : List (Nat × String)) (row : (Nat × String) × Nat)
    (h : row ∈ df_daily evs) : 1 ≤ row.2 := by
  unfold df_daily at h
  rcases List.mem_map.mp h with ⟨k, hk, rfl⟩
  have hk2 : k ∈ evs.dedup := ((List.perm_insertionSort dvLe evs.dedup).mem_iff).mp hk
  have hkev : k ∈ evs := List.mem_dedup.mp hk2
  have hpos : 0 < evs.countP (fun e => decide (e = k)) :=
    List.countP_pos_iff.mpr ⟨k, hkev, by simp⟩
  simpa using hpos

/-- C6: for every sequence of normalized events and every item_id, the sum of
`DailyCount.count` over all dates for that item_id equals the number of
normalized events carrying that item_id. -/
theorem claim_C6 (evs : List (Nat × String)) (v : String) :
    (((df_daily evs).filter (fun r => decide (r.1.2 = v))).map (fun r => r.2)).sum
      = (evs.filter (fun e => decide (e.2 = v))).length :=
  daily_count_sum evs v

/-- C10: every row of the `DailyCount` table has a strictly positive count: a
`(date, item_id)` key appears only when at least one normalized event produced
it. -/
theorem claim_C10 (evs : List (Nat × String)) (row : (Nat × String) × Nat)
    (h : row ∈ df_daily evs) : 1 ≤ row.2 :=
  daily_count_pos evs row h

/-- C10 witness: the single event `(19723, "a")` yields the daily row
`((19723, "a"), 1)`, whose count is indeed positive. -/
theorem claim_C10_witness :
    (((19723, "a"), 1) ∈ df_daily [(19723, "a")]) ∧ 1 ≤ (((19723 : Nat), ("a" : String)), (1 : Nat)).2 :=
  ⟨by decide, claim_C10 [(19723, "a")] ((19723, "a"), 1) (by decide)⟩

/-! ### The cumulative table -/

theorem lookupA_insertA {β : Type} (d : List (String × β)) (k k' : String) (v : β) :
    lookupA (insertA d k v) k' = if k = k' then some v else lookupA d k' := by
  induction d with
  | nil => simp [insertA, lookupA]
  | cons p d ih =>
    obtain ⟨k0, v0⟩ := p
    by_cases h : k0 = k
    · subst h
      by_cases h2 : k0 = k'
      · subst h2
        simp [insertA, lookupA]
      · simp [insertA, lookupA, h2]
    · by_cases h2 : k0 = k'
      · subst h2
        have : k ≠ k0 := fun hh => h hh.symm
        simp [insertA, lookupA, h, this]
      · simp [insertA, lookupA, h, h2, ih]

/-- Restricting the per-video running sum to one video id gives the plain
running sum of that video's rows, started from the accumulator's entry. -/
theorem cumsum_by_filter (v : String) :
    ∀ (rows : List ((Nat × String) × Nat)) (acc : List (String × Nat)),
    (cumsum_by acc rows).filter (fun c => decide (c.vid = v))
      = cumsum_one ((lookupA acc v).getD 0) (rows.filter (fun r => decide (r.1.2 = v))) := by
  intro rows
  induction rows with
  | nil => intro acc; rfl
  | cons r rest ih =>
    intro acc
    by_cases hv : r.1.2 = v
    · simp [cumsum_by, List.filter_cons, hv, ih, lookupA_insertA, cumsum_one]
    · simp [cumsum_by, List.filter_cons, hv, ih, lookupA_insertA]

theorem cumsum_one_cum_ge (l : List ((Nat × String) × Nat)) :
    ∀ (s : Nat), ∀ x ∈ cumsum_one s l, s ≤ x.cum := by
  induction l with
  | nil => intro s x hx; simp [cumsum_one] at hx
  | cons r rest ih =>
    intro s x hx
    rcases List.mem_cons.mp hx with rfl | hx2
    · exact Nat.le_add_right s r.2
    · exact Nat.le_trans (Nat.le_add_right s r.2) (ih (s + r.2) x hx2)

theorem cumsum_one_cum_sorted (l : List ((Nat × String) × Nat)) :
    ∀ (s : Nat), ((cumsum_one s l).map CumRow.cum).Pairwise (· ≤ ·) := by
  induction l with
  | nil => intro s; simp [cumsum_one]
  | cons r rest ih =>
    intro s
    simp only [cumsum_one, List.map_cons, List.pairwise_cons]
    refine ⟨?_, ih (s + r.2)⟩
    intro b hb
    rcases List.mem_map.mp hb with ⟨x, hx, rfl⟩
    exact cumsum_one_cum_ge rest (s + r.2) x hx

theorem cumsum_one_getLast (l : List ((Nat × String) × Nat)) :
    ∀ (s : Nat) (r : CumRow), (cumsum_one s l).getLast? = some r →
      r.cum = s + (l.map (fun x => x.2)).sum := by
  induction l with
  | nil => intro s r h; simp [cumsum_one] at h
  | cons a rest ih =>
    intro s r h
    cases rest with
    | nil =>
      simp only [cumsum_one, List.getLast?_singleton, Option.some.injEq] at h
      subst h
      simp
    | cons b rest2 =>
      rw [show cumsum_one s (a :: b :: rest2)
            = ⟨a.1.1, a.1.2, a.2, s + a.2⟩ ::
              (⟨b.1.1, b.1.2, b.2, s + a.2 + b.2⟩ :: cumsum_one (s + a.2 + b.2) rest2) from rfl,
          List.getLast?_cons_cons] at h
      have h2 : (cumsum_one (s + a.2) (b :: rest2)).getLast? = some r := h
      rw [ih (s + a.2) r h2]
      simp [Nat.add_assoc]

theorem cumsum_one_map_date (l : List ((Nat × String) × Nat)) :
    ∀ (s : Nat), (cumsum_one s l).map CumRow.date = l.map (fun r => r.1.1) := by
  induction l with
  | nil => intro s; rfl
  | cons r rest ih => intro s; simp [cumsum_one, ih]

/-- The keys of `df_daily` are exactly the sorted deduplicated event keys,
hence pairwise distinct. -/
theorem df_daily_keys_nodup (evs : List (Nat × String)) :
    ((df_daily evs).map Prod.fst).Nodup := by
  unfold df_daily
  rw [List.map_map]
  have h : (Prod.fst ∘ fun k : Nat × String => (k, evs.countP (fun e => decide (e = k)))) = id := rfl
  rw [h, List.map_id]
  exact ((List.perm_insertionSort dvLe evs.dedup).nodup_iff).mpr evs.nodup_dedup

/-- C5: for every item_id present in the `CumulativeCount` table, the rows of
that item appear in strictly increasing date order, their cumulative values are
non-decreasing, and the last cumulative value equals the item's total number
of normalized events. -/
theorem claim_C5 (evs : List (Nat × String)) (v : String) (r : CumRow)
    (h : ((df_cumulative evs).filter (fun c => decide (c.vid = v))).getLast? = some r) :
    (((df_cumulative evs).filter (fun c => decide (c.vid = v))).map CumRow.date).Pairwise (· < ·)
    ∧ (((df_cumulative evs).filter (fun c => decide (c.vid = v))).map CumRow.cum).Pairwise (· ≤ ·)
    ∧ r.cum = (evs.filter (fun e => decide (e.2 = v))).length := by
  have hL : (df_cumulative evs).filter (fun c => decide (c.vid = v))
      = cumsum_one 0 ((List.insertionSort vdLe (df_daily evs)).filter
          (fun x => decide (x.1.2 = v))) := by
    unfold df_cumulative
    simpa using cumsum_by_filter v (List.insertionSort vdLe (df_daily evs)) []
  refine ⟨?_, ?_, ?_⟩
  · rw [hL, cumsum_one_map_date]
    have hsorted : (List.insertionSort vdLe (df_daily evs)).Pairwise vdLe :=
      List.sorted_insertionSort vdLe _
    have hnd : ((List.insertionSort vdLe (df_daily evs)).map Prod.fst).Nodup :=
      (((List.perm_insertionSort vdLe (df_daily evs)).map Prod.fst).nodup_iff).mpr
        (df_daily_keys_nodup evs)
    have hne : (List.insertionSort vdLe (df_daily evs)).Pairwise (fun a b => a.1 ≠ b.1) :=
      List.pairwise_map.mp hnd
    have hcomb := hsorted.and hne
    have hfilt := hcomb.filter (fun x => decide (x.1.2 = v))
    rw [List.pairwise_map]
    refine List.Pairwise.imp_of_mem ?_ hfilt
    intro a b ha hb hab
    have hav : a.1.2 = v := by simpa using (List.mem_filter.mp ha).2
    have hbv : b.1.2 = v := by simpa using (List.mem_filter.mp hb).2
    rcases hab.1 with hlt | ⟨_, hle⟩
    · rw [hav, hbv] at hlt
      exact absurd hlt (by simp [charsLt_irrefl])
    · refine lt_of_le_of_ne hle ?_
      intro hd
      exact hab.2 (Prod.ext hd (hav.trans hbv.symm))
  · rw [hL]
    exact cumsum_one_cum_sorted _ 0
  · rw [hL] at h
    have hr := cumsum_one_getLast _ 0 r h
    rw [hr, Nat.zero_add]
    have hperm : List.Perm
        (((List.insertionSort vdLe (df_daily evs)).filter
          (fun x => decide (x.1.2 = v))).map (fun x => x.2))
        (((df_daily evs).filter (fun x => decide (x.1.2 = v))).map (fun x => x.2)) :=
      ((List.perm_insertionSort vdLe (df_daily evs)).filter _).map _
    rw [hperm.sum_eq]
    exact daily_count_sum evs v

/-- C5 witness: two days of events for video "A" (2 then 3 events) give the
cumulative rows (2, 2) and (3, 5); the last cumulative value 5 is the total
event count. -/
theorem claim_C5_witness :
    (((df_cumulative sampleB).filter (fun c => decide (c.vid = "A"))).getLast?
        = some ⟨19724, "A", 3, 5⟩)
    ∧ ((((df_cumulative sampleB).filter (fun c => decide (c.vid = "A"))).map
          CumRow.date).Pairwise (· < ·)
      ∧ (((df_cumulative sampleB).filter (fun c => decide (c.vid = "A"))).map
          CumRow.cum).Pairwise (· ≤ ·)
      ∧ (⟨19724, "A", 3, 5⟩ : CumRow).cum
          = (sampleB.filter (fun e => decide (e.2 = "A"))).length) :=
  ⟨by decide, claim_C5 sampleB ("A") ⟨19724, "A", 3, 5⟩ (by decide)⟩

/-! ### Scoreboard size (C2) -/

theorem cumsum_by_length : ∀ (rows : List ((Nat × String) × Nat)) (acc : List (String × Nat)),
    (cumsum_by acc rows).length = rows.length := by
  intro rows
  induction rows with
  | nil => intro acc; rfl
  | cons r rest ih => intro acc; simp [cumsum_by, ih]

theorem cumsum_by_map_vid : ∀ (rows : List ((Nat × String) × Nat)) (acc : List (String × Nat)),
    (cumsum_by acc rows).map CumRow.vid = rows.map (fun r => r.1.2) := by
  intro rows
  induction rows with
  | nil => intro acc; rfl
  | cons r rest ih => intro acc; simp [cumsum_by, ih]

theorem df_cumulative_length (evs : List (Nat × String)) :
    (df_cumulative evs).length = evs.dedup.length := by
  unfold df_cumulative
  rw [cumsum_by_length, (List.perm_insertionSort vdLe _).length_eq]
  unfold df_daily
  rw [List.length_map, (List.perm_insertionSort dvLe _).length_eq]

/-- The video ids of the cumulative table are, as a multiset, the ids of the
deduplicated event keys. -/
theorem df_cumulative_map_vid_perm (evs : List (Nat × String)) :
    List.Perm ((df_cumulative evs).map CumRow.vid) (evs.dedup.map Prod.snd) := by
  unfold df_cumulative
  rw [cumsum_by_map_vid]
  have h1 : List.Perm ((List.insertionSort vdLe (df_daily evs)).map (fun r => r.1.2))
      ((df_daily evs).map (fun r => r.1.2)) :=
    (List.perm_insertionSort vdLe _).map _
  refine h1.trans ?_
  unfold df_daily
  rw [List.map_map]
  have h2 : ((fun r : (Nat × String) × Nat => r.1.2)
      ∘ fun k : Nat × String => (k, evs.countP (fun e => decide (e = k)))) = Prod.snd := rfl
  rw [h2]
  exact (List.perm_insertionSort dvLe _).map _

theorem dedup_map_snd_of_dedup (evs : List (Nat × String)) :
    List.Perm ((evs.dedup.map Prod.snd).dedup) ((evs.map Prod.snd).dedup) := by
  refine (List.perm_ext_iff_of_nodup (List.nodup_dedup _) (List.nodup_dedup _)).mpr ?_
  intro v
  simp [List.mem_dedup, List.mem_map]

theorem length_filterMap_of_isSome {α β : Type} (f : α → Option β) :
    ∀ l : List α, (∀ a ∈ l, (f a).isSome) → (l.filterMap f).length = l.length := by
  intro l
  induction l with
  | nil => intro _; rfl
  | cons a t ih =>
    intro h
    rw [List.filterMap_cons]
    cases hfa : f a with
    | none => exact absurd (h a (List.mem_cons_self a t)) (by simp [hfa])
    | some b => simp [ih (fun x hx => h x (List.mem_cons_of_mem a hx))]

/-- The leaderboard has one row per distinct video id of the cumulative
table. -/
theorem latest_cumulative_length (cum : List CumRow) :
    (latest_cumulative cum).length = (cum.map CumRow.vid).dedup.length := by
  unfold latest_cumulative
  rw [length_filterMap_of_isSome, (List.perm_insertionSort strLe _).length_eq]
  intro v hv
  have hv2 : v ∈ (cum.map CumRow.vid).dedup :=
    ((List.perm_insertionSort strLe _).mem_iff).mp hv
  rcases List.mem_map.mp (List.mem_dedup.mp hv2) with ⟨r, hr, rfl⟩
  have hrf : r ∈ cum.filter (fun x => decide (x.vid = r.vid)) :=
    List.mem_filter.mpr ⟨hr, by simp⟩
  cases hc : cum.filter (fun x => decide (x.vid = r.vid)) with
  | nil => rw [hc] at hrf; simp at hrf
  | cons x t => simp [argmax_date, hc]

/-- C2 (amended): the scoreboard contains exactly one entry per distinct video
id of the normalized event set; the code performs no truncation to 5, so the
leaderboard is as long as the number of distinct ids. -/
theorem claim_C2 (evs : List (Nat × String)) (records : List RawRecord) :
    (df_scoreboard evs records).length = ((evs.map Prod.snd).dedup).length := by
  unfold df_scoreboard
  by_cases hc : (df_cumulative evs).isEmpty
  · rw [if_pos hc]
    have hcum : df_cumulative evs = [] := List.isEmpty_iff.mp hc
    have h0 : evs.dedup.length = 0 := by
      rw [← df_cumulative_length evs, hcum]
      rfl
    have hevs : evs = [] := (List.dedup_eq_nil evs).mp (List.eq_nil_of_length_eq_zero h0)
    subst hevs
    rfl
  · rw [if_neg hc]
    rw [(List.perm_insertionSort cumGe _).length_eq]
    have hrows : (if (video_info_dict records).isEmpty then
          (latest_cumulative (df_cumulative evs)).map (fun r =>
            ({ vid := r.vid, cum := r.cum,
               title := some "タイトル情報なし", thumb := some "サムネイル情報なし" } : ScRow))
        else
          (latest_cumulative (df_cumulative evs)).map (fun r =>
            ({ vid := r.vid, cum := r.cum,
               title := (lookupA (video_info_dict records) r.vid).map Prod.fst,
               thumb := (lookupA (video_info_dict records) r.vid).map Prod.snd } : ScRow))).length
        = (latest_cumulative (df_cumulative evs)).length := by
      split <;> rw [List.length_map]
    rw [hrows, latest_cumulative_length]
    rw [(df_cumulative_map_vid_perm evs).dedup.length_eq]
    exact (dedup_map_snd_of_dedup evs).length_eq

/-- C2 counterexample: six distinct videos, one watch each, produce a
leaderboard of six entries — more than the five the claim allows. -/
theorem claim_C2_counterexample :
    5 < (df_scoreboard
      (normalized_events [
        { time := .aware 1704103200, titleUrl := "watch?v=a", title := "A" },
        { time := .aware 1704103200, titleUrl := "watch?v=b", title := "B" },
        { time := .aware 1704103200, titleUrl := "watch?v=c", title := "C" },
        { time := .aware 1704103200, titleUrl := "watch?v=d", title := "D" },
        { time := .aware 1704103200, titleUrl := "watch?v=e", title := "E" },
        { time := .aware 1704103200, titleUrl := "watch?v=f", title := "F" }])
      [
        { time := .aware 1704103200, titleUrl := "watch?v=a", title := "A" },
        { time := .aware 1704103200, titleUrl := "watch?v=b", title := "B" },
        { time := .aware 1704103200, titleUrl := "watch?v=c", title := "C" },
        { time := .aware 1704103200, titleUrl := "watch?v=d", title := "D" },
        { time := .aware 1704103200, titleUrl := "watch?v=e", title := "E" },
        { time := .aware 1704103200, titleUrl := "watch?v=f", title := "F" }]).length := by
  decide

/-! ### Scoreboard ordering (C4) -/

/-- C4 (amended): the scoreboard is ordered descending (non-increasing) by
latest cumulative count.  Nothing more is guaranteed on ties: line 83 calls
`sort_values` with the default `kind='quicksort'`, which pandas documents as
not stable, so the relative order of equal-count rows is implementation
defined.  In particular ties are NOT in first-encounter order of the
normalized event stream: the rows entering the sort come from
`groupby('video_id')` in ascending-id order, first-encounter order already
discarded, and the counterexample below exhibits two tied rows leaving the
code in that ascending-id order against their encounter order. -/
theorem claim_C4 (evs : List (Nat × String)) (records : List RawRecord) :
    (df_scoreboard evs records).Pairwise (fun a b => b.cum ≤ a.cum) := by
  unfold df_scoreboard
  by_cases hc : (df_cumulative evs).isEmpty
  · rw [if_pos hc]
    exact List.Pairwise.nil
  · rw [if_neg hc]
    exact List.sorted_insertionSort cumGe _

/-- C4 counterexample: video "b" is encountered first in the normalized event
stream, video "a" second, and both end with cumulative count 1; the scoreboard
lists "a" before "b", so equal-count items are NOT kept in first-encounter
order.  (`groupby` emits the two rows in ascending-id order, and on two tied
rows numpy's argsort runs its stable insertion sort, so the real code, like
the embedding, leaves them that way.) -/
theorem claim_C4_counterexample :
    (normalized_events [
        { time := .aware 1704103200, titleUrl := "watch?v=b", title := "B" },
        { time := .aware 1704103200, titleUrl := "watch?v=a", title := "A" }]).map Prod.snd
      = ["b", "a"]
    ∧ (df_scoreboard
        (normalized_events [
          { time := .aware 1704103200, titleUrl := "watch?v=b", title := "B" },
          { time := .aware 1704103200, titleUrl := "watch?v=a", title := "A" }])
        [
          { time := .aware 1704103200, titleUrl := "watch?v=b", title := "B" },
          { time := .aware 1704103200, titleUrl := "watch?v=a", title := "A" }]).map
        (fun r => (r.vid, r.cum))
      = [("a", 1), ("b", 1)] := by
  constructor
  · decide
  · decide

/-! ### `load_data` paths (C1, C3, C7) -/

/-- Descending order on `(video_id, cumulative)` projections. -/
def pairGe (a b : String × Nat) : Prop := b.2 ≤ a.2

instance : DecidableRel pairGe := fun a b => inferInstanceAs (Decidable (b.2 ≤ a.2))

theorem load_data_ok (records : List RawRecord)
    (ha : (records.any fun x => x.time.isAware) = true)
    (hn : (records.any fun x => x.time.isNaive) = false) :
    load_data records = .ok
      { daily := df_daily (normalized_events records)
        cumulative := df_cumulative (normalized_events records)
        dailyTotal := df_daily_total (normalized_events records)
        monthlyTotal := df_monthly_total (normalized_events records)
        videoInfo := video_info_dict records
        mostWatchedDay := idxmax_first (df_daily_total (normalized_events records))
        mostWatchedMonth := idxmax_first (df_monthly_total (normalized_events records))
        scoreboard := df_scoreboard (normalized_events records) records } := by
  unfold load_data
  rw [hn, ha]
  rfl

theorem map_orderedInsert {β α : Type} (f : β → α) (rb : β → β → Prop) [DecidableRel rb]
    (ra : α → α → Prop) [DecidableRel ra] (h : ∀ a b, rb a b ↔ ra (f a) (f b)) (a : β) :
    ∀ L : List β, (List.orderedInsert rb a L).map f = List.orderedInsert ra (f a) (L.map f) := by
  intro L
  induction L with
  | nil => rfl
  | cons b t ih =>
    rw [List.orderedInsert, List.map_cons, List.orderedInsert]
    by_cases hc : rb a b
    · rw [if_pos hc, if_pos ((h a b).mp hc)]
      rfl
    · rw [if_neg hc, if_neg (fun hc2 => hc ((h a b).mpr hc2))]
      rw [List.map_cons, ih]

theorem map_insertionSort {β α : Type} (f : β → α) (rb : β → β → Prop) [DecidableRel rb]
    (ra : α → α → Prop) [DecidableRel ra] (h : ∀ a b, rb a b ↔ ra (f a) (f b)) :
    ∀ L : List β, (List.insertionSort rb L).map f = List.insertionSort ra (L.map f) := by
  intro L
  induction L with
  | nil => rfl
  | cons b t ih =>
    rw [List.insertionSort, List.map_cons, List.insertionSort, ← ih]
    exact map_orderedInsert f rb ra h b _

/-- The `(video_id, cumulative)` columns of the scoreboard do not depend on
the metadata dictionary (both join branches only add title/thumbnail
columns). -/
theorem scoreboard_proj (evs : List (Nat × String)) (records : List RawRecord) :
    (df_scoreboard evs records).map (fun s => (s.vid, s.cum))
      = if (df_cumulative evs).isEmpty then ([] : List (String × Nat))
        else List.insertionSort pairGe
          ((latest_cumulative (df_cumulative evs)).map (fun r => (r.vid, r.cum))) := by
  unfold df_scoreboard
  by_cases hc : (df_cumulative evs).isEmpty
  · rw [if_pos hc, if_pos hc]
    rfl
  · rw [if_neg hc, if_neg hc]
    rw [map_insertionSort (fun s : ScRow => (s.vid, s.cum)) cumGe pairGe (fun a b => Iff.rfl)]
    congr 1
    split <;> rw [List.map_map] <;> rfl

/-- C1: a record whose timestamp parses but carries no timezone information is
NOT treated as UTC and converted — it makes the whole batch fail.  The parsed
`time` column is tz-naive, so `tz_convert('Asia/Tokyo')` (line 28) raises
`TypeError`; the `except` branch (lines 90-92) reports the error and returns
`None` for every output (the `Except.error ()` branch). -/
theorem claim_C1 :
    load_data [{ time := .naive 1704103200, titleUrl := "watch?v=ABC", title := "X" }]
      = .error () := rfl

/-- C3 (amended): provided the batch reaches the success path (some timestamp
parses timezone-aware and none parses naive), a record whose timestamp failed
to parse (`NaT`) is dropped from every aggregate: removing it changes neither
`df_daily`, `df_cumulative`, `df_daily_total`, `df_monthly_total`, the
most-watched sentinels, nor the scoreboard's `(video_id, cumulative)` columns,
and the rest of the batch is still processed (`load_data` succeeds). -/
theorem claim_C3 (pre post : List RawRecord) (r : RawRecord) (hr : r.time = .failed)
    (ha : ((pre ++ post).any fun x => x.time.isAware) = true)
    (hn : ((pre ++ post).any fun x => x.time.isNaive) = false) :
    (load_data (pre ++ r :: post)).isOk = true
    ∧ (load_data (pre ++ r :: post)).map (fun o =>
        (o.daily, o.cumulative, o.dailyTotal, o.monthlyTotal,
         o.mostWatchedDay, o.mostWatchedMonth, o.scoreboard.map (fun s => (s.vid, s.cum))))
      = (load_data (pre ++ post)).map (fun o =>
        (o.daily, o.cumulative, o.dailyTotal, o.monthlyTotal,
         o.mostWatchedDay, o.mostWatchedMonth, o.scoreboard.map (fun s => (s.vid, s.cum)))) := by
  have ha1 : ((pre ++ r :: post).any fun x => x.time.isAware) = true := by
    simp only [List.any_append, List.any_cons, Bool.or_eq_true] at ha ⊢
    tauto
  have hn1 : ((pre ++ r :: post).any fun x => x.time.isNaive) = false := by
    simp only [List.any_append, List.any_cons, Bool.or_eq_false_iff] at hn ⊢
    refine ⟨hn.1, ?_, hn.2⟩
    rw [hr]
    rfl
  have hevs : normalized_events (pre ++ r :: post) = normalized_events (pre ++ post) := by
    unfold normalized_events
    rw [List.filterMap_append, List.filterMap_append, List.filterMap_cons, hr]
  constructor
  · rw [load_data_ok _ ha1 hn1]
    rfl
  · rw [load_data_ok _ ha1 hn1, load_data_ok _ ha hn]
    simp only [Except.map]
    rw [hevs, scoreboard_proj, scoreboard_proj]

/-- C3 counterexample: a batch consisting of one record whose timestamp fails
to parse is not "dropped while the batch continues" — the whole batch fails
(the all-`NaT` column is tz-naive and `tz_convert` raises; every output is
`None`). -/
theorem claim_C3_counterexample :
    load_data [{ time := .failed, titleUrl := "watch?v=abc", title := "T" }] = .error () := rfl

/-- C3 witness: a parse-failed record between a tz-aware batch is dropped and
the batch continues. -/
theorem claim_C3_witness :
    (({ time := .failed, titleUrl := "watch?v=zzz", title := "Z" } : RawRecord).time = .failed)
    ∧ ((([({ time := .aware 1704103200, titleUrl := "watch?v=a", title := "A" } : RawRecord)]
          ++ []).any fun x => x.time.isAware) = true)
    ∧ ((([({ time := .aware 1704103200, titleUrl := "watch?v=a", title := "A" } : RawRecord)]
          ++ []).any fun x => x.time.isNaive) = false)
    ∧ ((load_data ([({ time := .aware 1704103200, titleUrl := "watch?v=a", title := "A" } : RawRecord)]
          ++ { time := .failed, titleUrl := "watch?v=zzz", title := "Z" } :: [])).isOk = true
      ∧ (load_data ([({ time := .aware 1704103200, titleUrl := "watch?v=a", title := "A" } : RawRecord)]
          ++ { time := .failed, titleUrl := "watch?v=zzz", title := "Z" } :: [])).map (fun o =>
          (o.daily, o.cumulative, o.dailyTotal, o.monthlyTotal,
           o.mostWatchedDay, o.mostWatchedMonth, o.scoreboard.map (fun s => (s.vid, s.cum))))
        = (load_data ([({ time := .aware 1704103200, titleUrl := "watch?v=a", title := "A" } : RawRecord)]
            ++ [])).map (fun o =>
          (o.daily, o.cumulative, o.dailyTotal, o.monthlyTotal,
           o.mostWatchedDay, o.mostWatchedMonth, o.scoreboard.map (fun s => (s.vid, s.cum))))) :=
  ⟨rfl, by decide, by decide,
    claim_C3 [{ time := .aware 1704103200, titleUrl := "watch?v=a", title := "A" }] []
      { time := .failed, titleUrl := "watch?v=zzz", title := "Z" } rfl (by decide) (by decide)⟩

/-- C7 (amended): on the success path (some tz-aware timestamp, no naive one),
if the normalized event set is empty then every derived table is empty, both
most-watched lookups are the `none` sentinel, and no error is reported. -/
theorem claim_C7 (records : List RawRecord)
    (ha : (records.any fun x => x.time.isAware) = true)
    (hn : (records.any fun x => x.time.isNaive) = false)
    (hempty : normalized_events records = []) :
    (load_data records).map (fun o =>
        (o.daily, o.cumulative, o.dailyTotal, o.monthlyTotal, o.scoreboard,
         o.mostWatchedDay, o.mostWatchedMonth))
      = .ok ([], [], [], [], [], none, none) := by
  rw [load_data_ok records ha hn]
  simp only [Except.map]
  rw [hempty]
  rfl

/-- C7 witness: one tz-aware record whose locator has no video id — the
normalized set is empty, all tables are empty, the sentinels are `none`. -/
theorem claim_C7_witness :
    (([({ time := .aware 1704103200, titleUrl := "nothing", title := "X" } : RawRecord)].any
        fun x => x.time.isAware) = true)
    ∧ (([({ time := .aware 1704103200, titleUrl := "nothing", title := "X" } : RawRecord)].any
        fun x => x.time.isNaive) = false)
    ∧ normalized_events [{ time := .aware 1704103200, titleUrl := "nothing", title := "X" }] = []
    ∧ (load_data [{ time := .aware 1704103200, titleUrl := "nothing", title := "X" }]).map (fun o =>
        (o.daily, o.cumulative, o.dailyTotal, o.monthlyTotal, o.scoreboard,
         o.mostWatchedDay, o.mostWatchedMonth))
      = .ok ([], [], [], [], [], none, none) :=
  ⟨by decide, by decide, by decide,
    claim_C7 [{ time := .aware 1704103200, titleUrl := "nothing", title := "X" }]
      (by decide) (by decide) (by decide)⟩

/-- C7 counterexample: the empty upload has an empty normalized event set, yet
`load_data` does not return empty tables — `pd.DataFrame([])` has no `time`
column, line 21 raises `KeyError`, and the error branch returns `None` for
everything. -/
theorem claim_C7_counterexample :
    normalized_events ([] : List RawRecord) = [] ∧ load_data ([] : List RawRecord) = .error () :=
  ⟨rfl, rfl⟩

/-! ### Calendar pivot (C8) -/

theorem find?_unique {α : Type} (p : α → Bool) :
    ∀ (l : List α) (r : α), r ∈ l → p r = true → (∀ x ∈ l, p x = true → x = r) →
      l.find? p = some r := by
  intro l
  induction l with
  | nil => intro r hr _ _; simp at hr
  | cons a t ih =>
    intro r hr hp huniq
    by_cases hpa : p a = true
    · rw [List.find?_cons_of_pos _ hpa, huniq a (List.mem_cons_self a t) hpa]
    · rw [List.find?_cons_of_neg _ (by simpa using hpa)]
      rcases List.mem_cons.mp hr with rfl | hrt
      · exact absurd hp hpa
      · exact ih r hrt hp (fun x hx hpx => huniq x (List.mem_cons_of_mem a hx) hpx)

/-- C8 (amended): for a non-empty input series whose dates carry pairwise
distinct `((year, month), day)` labels, the reindexed pivot always has the
seven weekday rows Monday…Sunday in fixed order; in the row of a weekday that
occurs in the input, a cell with no matching date holds the fill value 0 and a
cell with a matching date holds that date's value; but the whole row of a
weekday that occurs nowhere in the input holds `NaN` (`none`), not 0 —
`reindex` fills missing rows with `NaN`, `fill_value=0` only acts inside
`pivot_table`. -/
theorem claim_C8 (data : List (Nat × Nat)) (_hne : data ≠ [])
    (hcols : data.Pairwise (fun a b => (ym_of a.1, dom_of a.1) ≠ (ym_of b.1, dom_of b.1))) :
    pivot_weekday_rows = [0, 1, 2, 3, 4, 5, 6]
    ∧ (∀ w, (∃ r ∈ data, weekday_of r.1 = w) →
        ∀ c ∈ pivot_cols data,
          (¬ ∃ r ∈ data, weekday_of r.1 = w ∧ (ym_of r.1, dom_of r.1) = c) →
            pivot_cell data w c = some 0)
    ∧ (∀ w, (¬ ∃ r ∈ data, weekday_of r.1 = w) →
        ∀ c, pivot_cell data w c = none)
    ∧ (∀ r ∈ data, pivot_cell data (weekday_of r.1) (ym_of r.1, dom_of r.1) = some r.2) := by
  refine ⟨rfl, ?_, ?_, ?_⟩
  · intro w hw c _ hnomatch
    unfold pivot_cell
    rcases hw with ⟨r, hr, hwr⟩
    rw [if_pos (List.any_eq_true.mpr ⟨r, hr, by simp [hwr]⟩)]
    have hfind : (data.find? fun r =>
        decide (weekday_of r.1 = w) && decide ((ym_of r.1, dom_of r.1) = c)) = none := by
      rw [List.find?_eq_none]
      intro x hx
      simp only [Bool.and_eq_true, decide_eq_true_eq, not_and]
      intro hxw hxc
      exact hnomatch ⟨x, hx, hxw, hxc⟩
    rw [hfind]
    rfl
  · intro w hnone c
    unfold pivot_cell
    rw [if_neg]
    simp only [List.any_eq_true, decide_eq_true_eq]
    intro hex
    exact hnone hex
  · intro r hr
    unfold pivot_cell
    rw [if_pos (List.any_eq_true.mpr ⟨r, hr, by simp⟩)]
    have hfind : (data.find? fun x =>
        decide (weekday_of x.1 = weekday_of r.1)
          && decide ((ym_of x.1, dom_of x.1) = (ym_of r.1, dom_of r.1))) = some r := by
      refine find?_unique _ data r hr (by simp) ?_
      intro x hx hpx
      simp only [Bool.and_eq_true, decide_eq_true_eq] at hpx
      by_contra hne2
      have hsym : Symmetric (fun a b : Nat × Nat =>
          (ym_of a.1, dom_of a.1) ≠ (ym_of b.1, dom_of b.1)) :=
        fun _ _ h h2 => h h2.symm
      exact (List.Pairwise.forall hsym hcols hx hr hne2) hpx.2
    rw [hfind]
    rfl

/-- C8 witness: a single input date 2024-01-01 (a Monday, day number 19723)
with value 5: the rows are the fixed seven weekdays, the Monday cell holds 5,
and the claim's instance holds. -/
theorem claim_C8_witness :
    ([((19723 : Nat), (5 : Nat))] ≠ [])
    ∧ ([((19723 : Nat), (5 : Nat))].Pairwise (fun a b =>
        (ym_of a.1, dom_of a.1) ≠ (ym_of b.1, dom_of b.1)))
    ∧ (pivot_weekday_rows = [0, 1, 2, 3, 4, 5, 6]
      ∧ (∀ w, (∃ r ∈ [((19723 : Nat), (5 : Nat))], weekday_of r.1 = w) →
          ∀ c ∈ pivot_cols [((19723 : Nat), (5 : Nat))],
            (¬ ∃ r ∈ [((19723 : Nat), (5 : Nat))],
                weekday_of r.1 = w ∧ (ym_of r.1, dom_of r.1) = c) →
              pivot_cell [((19723 : Nat), (5 : Nat))] w c = some 0)
      ∧ (∀ w, (¬ ∃ r ∈ [((19723 : Nat), (5 : Nat))], weekday_of r.1 = w) →
          ∀ c, pivot_cell [((19723 : Nat), (5 : Nat))] w c = none)
      ∧ (∀ r ∈ [((19723 : Nat), (5 : Nat))],
          pivot_cell [((19723 : Nat), (5 : Nat))] (weekday_of r.1)
            (ym_of r.1, dom_of r.1) = some r.2)) :=
  ⟨by decide, by decide, claim_C8 [((19723 : Nat), (5 : Nat))] (by decide) (by decide)⟩

/-- C8 counterexample: with the single input date 2024-01-01 (a Monday), the
Tuesday-row cell in the (January 2024, day 1) column corresponds to no input
date, yet it holds `NaN` (`none`), not 0 — refuting "every cell with no
matching input date holds 0". -/
theorem claim_C8_counterexample :
    (¬ ∃ r ∈ [((19723 : Nat), (5 : Nat))],
        weekday_of r.1 = 1 ∧ (ym_of r.1, dom_of r.1) = ((2024, 1), 1))
    ∧ ((2024, 1), 1) ∈ pivot_cols [((19723 : Nat), (5 : Nat))]
    ∧ pivot_cell [((19723 : Nat), (5 : Nat))] 1 ((2024, 1), 1) = none
    ∧ (none : Option Nat) ≠ some 0 :=
  ⟨by decide, by decide, by decide, by decide⟩

/-! ### Metadata resolver (C9) -/

/-- The title transformation the claim describes, following the spec's words
for comparison with the code: strip the fixed phrase only when it is a
TRAILING phrase, then trim whitespace. -/
def spec_title (s : String) : String :=
  ⟨py_strip (if phrase.isSuffixOf s.data then s.data.take (s.data.length - phrase.length)
             else s.data)⟩

theorem getLast?_cons_of_ne_nil {α : Type} (a : α) (l : List α) (h : l ≠ []) :
    (a :: l).getLast? = l.getLast? := by
  cases l with
  | nil => exact absurd rfl h
  | cons b t => exact List.getLast?_cons_cons

/-- Looking up a video id in the dictionary built by the metadata loop yields
the cleaned title of the LAST record carrying that id (later records
overwrite), together with the fixed thumbnail template. -/
theorem foldl_dict_lookup (v : String) :
    ∀ (records : List RawRecord) (d : List (String × String × String)),
      lookupA (records.foldl (fun d r =>
          match extract_video_id r.titleUrl.data with
          | some u => insertA d ⟨u⟩ (clean_title r.title, thumbnail_url ⟨u⟩)
          | none => d) d) v
        = match (records.filter (fun x =>
            decide (extract_video_id x.titleUrl.data = some v.data))).getLast? with
          | some r => some (clean_title r.title, thumbnail_url v)
          | none => lookupA d v := by
  intro records
  induction records with
  | nil => intro d; rfl
  | cons r t ih =>
    intro d
    rw [List.foldl_cons, List.filter_cons, ih]
    cases hlast : (t.filter (fun x =>
        decide (extract_video_id x.titleUrl.data = some v.data))).getLast? with
    | some r2 =>
      have htne : t.filter (fun x =>
          decide (extract_video_id x.titleUrl.data = some v.data)) ≠ [] := by
        intro h0
        rw [h0] at hlast
        simp at hlast
      by_cases hpr : (decide (extract_video_id r.titleUrl.data = some v.data)) = true
      · rw [if_pos hpr, getLast?_cons_of_ne_nil _ _ htne, hlast]
      · rw [if_neg hpr, hlast]
    | none =>
      have htnil : t.filter (fun x =>
          decide (extract_video_id x.titleUrl.data = some v.data)) = [] := by
        by_contra hne
        have hs := List.getLast?_isSome.mpr hne
        rw [hlast] at hs
        simp at hs
      rw [htnil]
      by_cases hpr : extract_video_id r.titleUrl.data = some v.data
      · rw [if_pos (by simp [hpr]), hpr]
        show lookupA (insertA d ⟨v.data⟩ (clean_title r.title, thumbnail_url ⟨v.data⟩)) v
          = some (clean_title r.title, thumbnail_url v)
        rw [lookupA_insertA, if_pos (show (⟨v.data⟩ : String) = v from rfl)]
      · rw [if_neg (by simp [hpr])]
        cases he : extract_video_id r.titleUrl.data with
        | none =>
          rfl
        | some u =>
          have hu : (⟨u⟩ : String) ≠ v := by
            intro hk
            apply hpr
            rw [he, show u = v.data from by rw [← hk]]
          show lookupA (insertA d ⟨u⟩ (clean_title r.title, thumbnail_url ⟨u⟩)) v = lookupA d v
          rw [lookupA_insertA, if_neg hu]

/-- C9 (amended): for every video id with at least one labelled record, the
metadata dictionary stores, under that id, the title of the LAST record with
that id (last-seen wins) with EVERY occurrence of the fixed phrase removed
(`str.replace` replaces all occurrences, not only a trailing one) and
whitespace trimmed, together with the thumbnail URL built from the fixed
template and the id alone. -/
theorem claim_C9 (records : List RawRecord) (v : String) (r : RawRecord)
    (hlast : (records.filter (fun x =>
        decide (extract_video_id x.titleUrl.data = some v.data))).getLast? = some r) :
    lookupA (video_info_dict records) v = some (clean_title r.title, thumbnail_url v) := by
  unfold video_info_dict
  rw [foldl_dict_lookup, hlast]

/-- C9 witness: two records for "abc"; the later title wins and is cleaned
("  Y を視聴しました " becomes "Y"); the thumbnail is the fixed template. -/
theorem claim_C9_witness :
    (([({ time := .aware 1704103200, titleUrl := "watch?v=abc", title := "X を視聴しました" } : RawRecord),
       { time := .aware 1704103200, titleUrl := "watch?v=abc", title := "  Y を視聴しました " }].filter
        (fun x => decide (extract_video_id x.titleUrl.data = some ("abc" : String).data))).getLast?
      = some { time := .aware 1704103200, titleUrl := "watch?v=abc", title := "  Y を視聴しました " })
    ∧ lookupA (video_info_dict
        [({ time := .aware 1704103200, titleUrl := "watch?v=abc", title := "X を視聴しました" } : RawRecord),
         { time := .aware 1704103200, titleUrl := "watch?v=abc", title := "  Y を視聴しました " }]) ("abc")
      = some (clean_title ("  Y を視聴しました "), thumbnail_url ("abc"))
    ∧ clean_title ("  Y を視聴しました ") = ("Y" : String)
    ∧ thumbnail_url ("abc") = ("http://img.youtube.com/vi/abc/hqdefault.jpg" : String) :=
  ⟨by decide,
   claim_C9 [{ time := .aware 1704103200, titleUrl := "watch?v=abc", title := "X を視聴しました" },
             { time := .aware 1704103200, titleUrl := "watch?v=abc", title := "  Y を視聴しました " }]
     ("abc")
     { time := .aware 1704103200, titleUrl := "watch?v=abc", title := "  Y を視聴しました " }
     (by decide),
   by decide, by decide⟩

/-- C9 counterexample: when the fixed phrase occurs in the MIDDLE of a label,
the code removes it anyway (`str.replace` is global), while the claim's
trailing-only strip would keep the label unchanged; the two disagree. -/
theorem claim_C9_counterexample :
    lookupA (video_info_dict
        [({ time := .aware 1704103200, titleUrl := "watch?v=abc",
            title := "A を視聴しました B" } : RawRecord)]) ("abc")
      = some (("A B" : String), thumbnail_url ("abc"))
    ∧ spec_title ("A を視聴しました B") = ("A を視聴しました B" : String)
    ∧ (("A B" : String) ≠ ("A を視聴しました B" : String)) :=
  ⟨by decide, by decide, by decide⟩

end WatchHistory
